import Mathlib

/-!
Shallow embedding of `mlflow/pyfunc/__init__.py`: export and import of generic
Python models.  The filesystem is modelled as an association list from paths to
nodes; stateful code runs in `EStateM Err PyState`, whose `error` results keep
the state reached at the raise site, matching Python's exception semantics
(side effects performed before a raise persist).  Machine-level concerns
(bytes, permissions) are outside the claims and are not modelled.
-/

namespace Mlflow

abbrev Path := String

/-!
String primitives over the character list underlying `String`, mirroring the
Python `str` operations the module uses.  (The corresponding `String` library
functions go through substring iterators, which the kernel does not reduce;
these character-level versions have the same semantics on the claims' inputs
and evaluate on concrete data.)
-/

/-- Python `s.startswith(pre)`. -/
def strStartsWith (s pre : String) : Bool := s.data.take pre.data.length == pre.data

/-- Python `s.endswith(suf)`. -/
def strEndsWith (s suf : String) : Bool :=
  s.data.drop (s.data.length - suf.data.length) == suf.data

/-- Drop the first `n` characters of `s`. -/
def strDrop (s : String) (n : Nat) : String := ⟨s.data.drop n⟩

/-- Python `s.split(c)` for a one-character separator, on character lists. -/
def splitOnChar (c : Char) : List Char → List (List Char)
  | [] => [[]]
  | x :: xs =>
    let r := splitOnChar c xs
    if x = c then [] :: r
    else match r with
      | [] => [x] :: []
      | y :: ys => (x :: y) :: ys

/-- Python `s.split(c)` on strings. -/
def strSplitOn (c : Char) (s : String) : List String :=
  (splitOnChar c s.data).map (fun l => String.mk l)

/-- Lexicographic comparison of character lists by code point — Python's `<`
on strings. -/
def charListLt : List Char → List Char → Bool
  | [], [] => false
  | [], _ :: _ => true
  | _ :: _, [] => false
  | a :: as, b :: bs => if a < b then true else if b < a then false else charListLt as bs

/-- Python `a < b` on strings: lexicographic by code point. -/
def strLt (a b : String) : Bool := charListLt a.data b.data

/-- The POSIX path separator. -/
def sepChar : Char := Char.ofNat 47

/-- The ASCII dot. -/
def dotChar : Char := Char.ofNat 46

/-- `os.path.join` for two POSIX components: an absolute second argument wins;
otherwise the parts are joined with a single separator. -/
def os_join (a b : Path) : Path :=
  if strStartsWith b "/" then b
  else if a = "" then b
  else if strEndsWith a "/" then a ++ b
  else a ++ "/" ++ b

/-- Component-wise normalisation used by `os.path.normpath`: drops empty and
`.` components and resolves `..` against the accumulated stack. -/
def normParts (acc : List String) : List String → List String
  | [] => acc.reverse
  | x :: rest =>
    if x = "" ∨ x = "." then normParts acc rest
    else if x = ".." then
      match acc with
      | [] => normParts [".."] rest
      | y :: ys => if y = ".." then normParts (".." :: y :: ys) rest else normParts ys rest
    else normParts (x :: acc) rest

/-- `os.path.normpath` on POSIX paths. -/
def os_normpath (p : Path) : Path :=
  let abs := strStartsWith p "/"
  let parts := normParts [] (strSplitOn sepChar p)
  let body := String.intercalate "/" parts
  if abs then "/" ++ body
  else if body = "" then "." else body

/-- `os.path.abspath(p)` = `normpath(join(cwd, p))`; the current working
directory is passed explicitly. -/
def os_abspath (cwd p : Path) : Path := os_normpath (os_join cwd p)

/-- `os.path.basename`: everything after the last separator. -/
def os_basename (p : Path) : String :=
  (((strSplitOn sepChar p)).getLast?).getD ""

/-- Truthiness of an optional Python string: `None` and `""` are falsy. -/
def truthy : Option String → Bool
  | none => false
  | some s => s ≠ ""

-- Manifest constants of the module.
def FLAVOR_NAME : String := "python_function"
def MAIN : String := "loader_module"
def CODE : String := "code"
def DATA : String := "data"
def ENV : String := "env"
def PY_VERSION : String := "python_version"

/-- The `python_function` flavor configuration dictionary.  Optional fields are
`Option String`: `none` means the key is absent, `some ""` present but falsy,
distinguishing Python's `k in conf` from `conf[k]` truthiness. -/
structure FlavorConf where
  loader_module : String
  python_version : Option String := none
  code : Option String := none
  data : Option String := none
  env : Option String := none
  deriving Repr, DecidableEq

/-- The manifest persistence object (external collaborator `mlflow.models.Model`):
a flavors mapping from flavor name to configuration. -/
structure Model where
  flavors : List (String × FlavorConf) := []
  deriving Repr, DecidableEq

/-- `Model.add_flavor(name, **parms)`: dict-style update of the flavors map. -/
def Model.add_flavor (m : Model) (name : String) (conf : FlavorConf) : Model :=
  ⟨(name, conf) :: m.flavors.filter (fun kv => kv.1 ≠ name)⟩

/-- A filesystem node: a plain file with opaque content, a directory, or a
serialized manifest (`MLmodel` files, whose parsed content we keep directly). -/
inductive Node where
  | file (content : String)
  | dir
  | manifestFile (m : Model)
  deriving Repr, DecidableEq

/-- Filesystem: association list from absolute-ish path strings to nodes;
the first binding for a path wins. -/
structure FS where
  nodes : List (Path × Node) := []
  deriving Repr, DecidableEq

def FS.find (fs : FS) (p : Path) : Option Node := fs.nodes.lookup p

def FS.existsP (fs : FS) (p : Path) : Bool := (fs.find p).isSome

def FS.isfile (fs : FS) (p : Path) : Bool :=
  match fs.find p with
  | some (.file _) => true
  | _ => false

def FS.set (fs : FS) (p : Path) (n : Node) : FS := ⟨(p, n) :: fs.nodes⟩

/-- `os.listdir p`: the immediate child names of `p`, in binding order,
without duplicates.  Directory listing order is filesystem-dependent in the
source; this fixes one deterministic order. -/
def FS.listdir (fs : FS) (p : Path) : List String :=
  ((fs.nodes.map Prod.fst).filterMap (fun q =>
    if strStartsWith q (p ++ "/") then
      let rest := strDrop q (p.data.length + 1)
      if rest ≠ "" ∧ ¬ rest.data.contains sepChar then some rest else none
    else none)).dedup

/-- Errors raised by the embedded code.  The Python source raises generic
`Exception`/`OSError` values distinguished by message; we distinguish them by
constructor. -/
inductive Err where
  | alreadyExists (path : Path)    -- save_model: "Path '...' already exists"
  | flavorNotFound (path : Path)   -- "Format 'python_function' not found not in ..."
  | fileExists (path : Path)       -- FileExistsError from os.mkdir / os.makedirs / copytree
  | fileNotFound (path : Path)     -- missing source file / manifest
  deriving Repr, DecidableEq

/-- Process state: the filesystem, the module search path `sys.path`, and the
diagnostic stream `eprint` writes to. -/
structure PyState where
  fs : FS
  sysPath : List Path := []
  stderrLines : List String := []
  deriving Repr, DecidableEq

abbrev PyM := EStateM Err PyState

def getFS : PyM FS := do pure (← EStateM.get).fs

def setFS (fs : FS) : PyM Unit :=
  EStateM.modifyGet (fun st => ((), { st with fs := fs }))

/-- `eprint`: append one line to the diagnostic stream. -/
def eprint (s : String) : PyM Unit :=
  EStateM.modifyGet (fun st => ((), { st with stderrLines := st.stderrLines ++ [s] }))

/-- `os.mkdir`: fails with `FileExistsError` when the path exists. -/
def os_mkdir (p : Path) : PyM Unit := do
  let fs ← getFS
  if fs.existsP p then throw (.fileExists p)
  else setFS (fs.set p .dir)

/-- `os.makedirs`: fails with `FileExistsError` when the path exists
(intermediate directories are not tracked separately). -/
def os_makedirs (p : Path) : PyM Unit := do
  let fs ← getFS
  if fs.existsP p then throw (.fileExists p)
  else setFS (fs.set p .dir)

/-- `shutil.copy(src, dst)` with `dst` a full file path. -/
def shutil_copy (src dst : Path) : PyM Unit := do
  let fs ← getFS
  match fs.find src with
  | some (.file c) => setFS (fs.set dst (.file c))
  | _ => throw (.fileNotFound src)

/-- `shutil.copytree(src, dst)`: fails if `dst` exists, otherwise re-roots the
whole subtree at `src` under `dst`. -/
def shutil_copytree (src dst : Path) : PyM Unit := do
  let fs ← getFS
  if fs.existsP dst then throw (.fileExists dst)
  else if ¬ fs.existsP src then throw (.fileNotFound src)
  else
    let moved := fs.nodes.filterMap (fun qn =>
      if qn.1 = src then some (dst, qn.2)
      else if strStartsWith qn.1 (src ++ "/") then
        some (dst ++ strDrop qn.1 src.data.length, qn.2)
      else none)
    setFS ⟨moved ++ fs.nodes⟩

/-- `Model.load(path)`: reads a serialized manifest. -/
def Model.load (p : Path) : PyM Model := do
  let fs ← getFS
  match fs.find p with
  | some (.manifestFile m) => pure m
  | _ => throw (.fileNotFound p)

/-- `Model.save(path)`: serializes the manifest at `path`. -/
def Model.save (m : Model) (p : Path) : PyM Unit := do
  let fs ← getFS
  setFS (fs.set p (.manifestFile m))

/-- Modelled from the spec: `mlflow.utils.get_major_minor_py_version` lives
outside `src/`; per the spec the compatibility comparison is on "the tag's
major.minor", i.e. the first two dot-separated components of the version
string. -/
def get_major_minor_py_version (v : String) : String :=
  String.intercalate "." ((strSplitOn dotChar v).take 2)

/-- `add_to_model(model, loader_module, data, code, env)`: populate the
`python_function` flavor entry; the running interpreter's `PYTHON_VERSION` is
passed explicitly as `current_version`. -/
def add_to_model (model : Model) (loader_module : String)
    (data code env : Option String) (current_version : String) : Model :=
  let parms : FlavorConf :=
    { loader_module := loader_module
      python_version := some current_version
      code := if truthy code then code else none
      data := if truthy data then data else none
      env := if truthy env then env else none }
  model.add_flavor FLAVOR_NAME parms

/-- `_load_model_conf(path)` (the `run_id` branch delegates to the external
tracking collaborator and is not modelled): load `path/MLmodel` and return the
`python_function` flavor configuration, raising when the flavor is absent. -/
def _load_model_conf (path : Path) : PyM FlavorConf := do
  let conf_path := os_join path "MLmodel"
  let model ← Model.load conf_path
  match model.flavors.lookup FLAVOR_NAME with
  | none => throw (.flavorNotFound conf_path)
  | some c => pure c

/-- `_load_model_env(path)`. -/
def _load_model_env (path : Path) : PyM (Option String) := do
  let conf ← _load_model_conf path
  pure conf.env

/-- The two diagnostic messages of
`_warn_potentially_incompatible_py_version_if_necessary`. -/
def unknownVersionMsg (current_version : String) : String :=
  "The specified model does not have a specified Python version. It may be" ++
  " incompatible with the version of Python that is currently running:" ++
  " Python " ++ current_version

def versionMismatchMsg (model_version current_version : String) : String :=
  "The version of Python that the model was saved in, Python " ++ model_version ++
  ", differs from the version of Python that is currently running, Python " ++
  current_version ++ ", and may be incompatible"

/-- `_warn_potentially_incompatible_py_version_if_necessary(model_py_version)`:
emits one diagnostic line when the tag is absent or its major.minor differs
from the running interpreter's. -/
def _warn_potentially_incompatible_py_version_if_necessary
    (current_version : String) (model_py_version : Option String) : PyM Unit := do
  match model_py_version with
  | none => eprint (unknownVersionMsg current_version)
  | some v =>
    if get_major_minor_py_version v ≠ get_major_minor_py_version current_version then
      eprint (versionMismatchMsg v current_version)
    else pure ()

/-- `_get_code_dirs(src_code_path, dst_code_path=None)`: immediate entries of
the source code directory that are not `*.py`, `*.pyc` or `__pycache__`,
rewritten under the destination (defaulting to the source). -/
def _get_code_dirs (fs : FS) (src_code_path : Path)
    (dst_code_path : Option Path := none) : List Path :=
  let dst := if truthy dst_code_path then dst_code_path.getD "" else src_code_path
  ((fs.listdir src_code_path).filter (fun x =>
      ¬ strEndsWith x ".py" ∧ ¬ strEndsWith x ".pyc" ∧ ¬ (x = "__pycache__"))).map
    (fun x => os_join dst x)

/-- The opaque handle returned by the resolved loader module: we record which
module was imported and which data path its `load_pyfunc` received; the
external loader itself is an external collaborator. -/
structure LoadedHandle where
  loader_module : String
  data_path : Path
  deriving Repr, DecidableEq

/-- `load_pyfunc(path, suppress_warnings=False)` (again without the external
`run_id` branch).  `importlib.import_module(conf[MAIN]).load_pyfunc(data_path)`
is modelled as constructing the `LoadedHandle` for that module and path. -/
def load_pyfunc (current_version : String) (path : Path)
    (suppress_warnings : Bool := false) : PyM LoadedHandle := do
  let conf ← _load_model_conf path
  let model_py_version := conf.python_version
  if ¬ suppress_warnings then
    _warn_potentially_incompatible_py_version_if_necessary current_version model_py_version
  if truthy conf.code then
    let code_path := os_join path (conf.code.getD "")
    let fs ← getFS
    EStateM.modifyGet (fun st =>
      ((), { st with sysPath := [code_path] ++ _get_code_dirs fs code_path ++ st.sysPath }))
  let conf_data := conf.data
  let data_path := match conf_data with
    | some d => os_join path d
    | none => path
  pure { loader_module := conf.loader_module, data_path := data_path }

/-- The body of the `predict` closure built by `spark_udf`: a pandas DataFrame
with the stringified positional indices as column labels, in explicit
positional order.  `colData` is aligned with `columns`. -/
structure PandasDF (α : Type) where
  columns : List String
  colData : List (List α)
  deriving Repr, DecidableEq

/-- `predict(*args)` inside `spark_udf`: builds the DataFrame from the
positional argument columns and applies the cached model's `predict`;
`pandas.Series` preserves the order of `result`, so it is the identity here.
The memoized `SparkModelCache.get_or_load` is an external collaborator,
abstracted as the `modelPredict` function itself. -/
def spark_udf_schema {α : Type} (args : List (List α)) : List (String × List α) :=
  args.enum.map (fun ia => (toString ia.1, ia.2))

def spark_udf_columns {α : Type} (args : List (List α)) : List String :=
  args.enum.map (fun ia => toString ia.1)

/-- `pandas.DataFrame(schema, columns=columns)`: the columns appear in the
order of the explicit `columns` list, each taking its data from the dict. -/
def spark_udf_pdf {α : Type} (args : List (List α)) : PandasDF α :=
  ⟨spark_udf_columns args,
   (spark_udf_columns args).map (fun c => ((spark_udf_schema args).lookup c).getD [])⟩

def spark_udf_predict {α β : Type} (modelPredict : PandasDF α → List β)
    (args : List (List α)) : List β :=
  let result := modelPredict (spark_udf_pdf args)
  result

/-- `_copy_file_or_tree(src, dst, dst_dir)`. -/
def _copy_file_or_tree (cwd : Path) (src dst : Path) (dst_dir : String) :
    PyM String := do
  let name := os_join dst_dir (os_basename (os_abspath cwd src))
  if dst_dir ≠ "" then
    os_mkdir (os_join dst dst_dir)
  let fs ← getFS
  if fs.isfile src then
    shutil_copy src (os_join dst name)
  else
    shutil_copytree src (os_join dst name)
  pure name

/-- `save_model(dst_path, loader_module, data_path=None, code_path=(),
conda_env=None, model=Model())`. -/
def save_model (current_version : String) (cwd : Path) (dst_path : Path)
    (loader_module : String) (data_path : Option Path := none)
    (code_path : List Path := []) (conda_env : Option Path := none)
    (model : Model := {}) : PyM Model := do
  let fs0 ← getFS
  if fs0.existsP dst_path then
    throw (.alreadyExists dst_path)
  os_makedirs dst_path
  let mut code : Option String := none
  let mut data : Option String := none
  let mut env : Option String := none
  if truthy data_path then
    let model_file ← _copy_file_or_tree cwd (data_path.getD "") dst_path "data"
    data := some model_file
  if code_path ≠ [] then
    for p in code_path do
      let _ ← _copy_file_or_tree cwd p dst_path "code"
    code := some "code"
  if truthy conda_env then
    shutil_copy (conda_env.getD "") (os_join dst_path "mlflow_env.yml")
    env := some "mlflow_env.yml"
  let model := add_to_model model loader_module data code env current_version
  model.save (os_join dst_path "MLmodel")
  pure model

/-- A single-quote character, for rendering the generated Python source. -/
def sq : String := String.singleton (Char.ofNat 39)

/-- The `loader_template` of the module, with the three format placeholders
substituted (Lean-side interpolation replaces `str.format`). -/
def loader_template (update_path main data_path : String) : String :=
  "\n\nimport importlib\nimport os\nimport sys\n\ndef load_pyfunc():\n    " ++
  update_path ++ "return importlib.import_module(" ++ sq ++ main ++ sq ++
  ").load_pyfunc(" ++ sq ++ data_path ++ sq ++ ")\n\n"

/-- The list of directories the emitted deployment script prepends to
`sys.path`: `[dst_code_path] + _get_code_dirs(src_code_path, dst_code_path)`
(each later wrapped in `os.path.abspath(...)` in the script text). -/
def emit_code_dirs (fs : FS) (src_path dst_path : Path) (conf : FlavorConf) :
    List Path :=
  let src_code_path := os_join src_path (conf.code.getD "")
  let dst_code_path := os_join dst_path (conf.code.getD "")
  [dst_code_path] ++ _get_code_dirs fs src_code_path (some dst_code_path)

/-- `get_module_loader_src(src_path, dst_path)`. -/
def get_module_loader_src (src_path dst_path : Path) : PyM String := do
  let conf_path := os_join src_path "MLmodel"
  let model ← Model.load conf_path
  let conf ← match model.flavors.lookup FLAVOR_NAME with
    | none => throw (.flavorNotFound conf_path)
    | some c => pure c
  let fs ← getFS
  let update_path :=
    if truthy conf.code then
      let code_path := (emit_code_dirs fs src_path dst_path conf).map
        (fun x => "os.path.abspath(" ++ sq ++ x ++ sq ++ ")")
      "sys.path = " ++ "[" ++ String.intercalate "," code_path ++ "]" ++ " + sys.path; "
    else ""
  let data_path := match conf.data with
    | some d => os_join dst_path d
    | none => dst_path
  pure (loader_template update_path conf.loader_module data_path)

/-! Projections on run results, used to state claims component-wise. -/

def valueOf {α : Type} : EStateM.Result Err PyState α → Option α
  | .ok a _ => some a
  | .error _ _ => none

def stateOf {α : Type} : EStateM.Result Err PyState α → PyState
  | .ok _ s => s
  | .error _ s => s

def errOf {α : Type} : EStateM.Result Err PyState α → Option Err
  | .ok _ _ => none
  | .error e _ => some e

/-- The diagnostic lines `_warn_potentially_incompatible_py_version_if_necessary`
emits, as a pure function of the recorded tag. -/
def warnMsgs (current_version : String) : Option String → List String
  | none => [unknownVersionMsg current_version]
  | some v =>
    if get_major_minor_py_version v ≠ get_major_minor_py_version current_version
    then [versionMismatchMsg v current_version] else []

theorem warn_run (cv : String) (mv : Option String) (st : PyState) :
    (_warn_potentially_incompatible_py_version_if_necessary cv mv).run st =
      .ok () { st with stderrLines := st.stderrLines ++ warnMsgs cv mv } := by
  cases mv with
  | none =>
    simp [_warn_potentially_incompatible_py_version_if_necessary, warnMsgs, eprint,
      EStateM.run, EStateM.modifyGet]
  | some v =>
    by_cases h : get_major_minor_py_version v = get_major_minor_py_version cv <;>
      simp [_warn_potentially_incompatible_py_version_if_necessary, warnMsgs, eprint,
        EStateM.run, EStateM.modifyGet, h, pure, EStateM.pure]

theorem load_model_conf_run (path : Path) (st : PyState) (m : Model) (conf : FlavorConf)
    (hload : st.fs.find (os_join path "MLmodel") = some (.manifestFile m))
    (hflav : m.flavors.lookup FLAVOR_NAME = some conf) :
    (_load_model_conf path).run st = .ok conf st := by
  simp [_load_model_conf, Model.load, getFS, EStateM.run, bind, EStateM.bind,
    EStateM.get, pure, EStateM.pure, hload, hflav]

/-- Full characterization of `load_pyfunc` when the manifest is present and the
flavor entry found: the returned handle and the state updates (warning lines,
then the `sys.path` prepend). -/
theorem load_pyfunc_run (cv : String) (path : Path) (sw : Bool) (st : PyState)
    (m : Model) (conf : FlavorConf)
    (hload : st.fs.find (os_join path "MLmodel") = some (.manifestFile m))
    (hflav : m.flavors.lookup FLAVOR_NAME = some conf) :
    (load_pyfunc cv path sw).run st =
      .ok { loader_module := conf.loader_module
            data_path := match conf.data with
              | some d => os_join path d
              | none => path }
        (let st1 : PyState := { st with stderrLines :=
            st.stderrLines ++ if sw then [] else warnMsgs cv conf.python_version }
         if truthy conf.code then
           { st1 with sysPath :=
              [os_join path (conf.code.getD "")] ++
                _get_code_dirs st.fs (os_join path (conf.code.getD "")) ++ st1.sysPath }
         else st1) := by
  have hconf := load_model_conf_run path st m conf hload hflav
  simp only [EStateM.run] at hconf
  have hw := warn_run cv conf.python_version
  simp only [EStateM.run] at hw
  cases sw <;> by_cases hc : truthy conf.code <;>
    simp [load_pyfunc, EStateM.run, bind, EStateM.bind, hconf, hc, hw, getFS,
      EStateM.get, pure, EStateM.pure, EStateM.modifyGet]

/-- C1: for every destination path that already exists (file, empty or
non-empty directory), `save_model` fails with the already-exists error and
performs no filesystem writes: the state at the raise site is exactly the
initial state, so no directory was created and no file copied. -/
theorem save_model_existing_dst_fails_no_writes
    (cv cwd dst_path loader_module : String) (data_path : Option Path)
    (code_path : List Path) (conda_env : Option Path) (model : Model) (st : PyState)
    (h : st.fs.existsP dst_path = true) :
    (save_model cv cwd dst_path loader_module data_path code_path conda_env model).run st
      = .error (.alreadyExists dst_path) st := by
  simp [save_model, getFS, EStateM.run, bind, EStateM.bind, EStateM.get, pure,
    EStateM.pure, h, throw, throwThe, MonadExceptOf.throw, EStateM.throw]

def stW1 : PyState := { fs := ⟨[("dst", .dir)]⟩ }

theorem save_model_existing_dst_fails_no_writes_witness :
    stW1.fs.existsP "dst" = true ∧
    (save_model "2.7.6" "/cwd" "dst" "m" none [] none {}).run stW1
      = .error (.alreadyExists "dst") stW1 :=
  ⟨rfl,
   save_model_existing_dst_fails_no_writes "2.7.6" "/cwd" "dst" "m" none [] none {} stW1
     rfl⟩

/-- C2: for every artifact whose manifest loads but whose flavors mapping lacks
the `python_function` entry, `load_pyfunc` fails with the flavor-not-found
error and nothing else: the run result is exactly that error, with the state
untouched. -/
theorem load_pyfunc_missing_flavor_fails
    (cv path : String) (sw : Bool) (st : PyState) (m : Model)
    (hload : st.fs.find (os_join path "MLmodel") = some (.manifestFile m))
    (hmiss : m.flavors.lookup FLAVOR_NAME = none) :
    (load_pyfunc cv path sw).run st
      = .error (.flavorNotFound (os_join path "MLmodel")) st := by
  simp [load_pyfunc, _load_model_conf, Model.load, getFS, EStateM.run, bind,
    EStateM.bind, EStateM.get, pure, EStateM.pure, hload, hmiss, throw, throwThe,
    MonadExceptOf.throw, EStateM.throw]

def stW2 : PyState := { fs := ⟨[("art/MLmodel", .manifestFile ⟨[("sklearn",
  { loader_module := "mlflow.sklearn" })]⟩)]⟩ }

theorem load_pyfunc_missing_flavor_fails_witness :
    stW2.fs.find (os_join "art" "MLmodel")
        = some (.manifestFile ⟨[("sklearn", { loader_module := "mlflow.sklearn" })]⟩) ∧
    (load_pyfunc "2.7.6" "art" false).run stW2
      = .error (.flavorNotFound (os_join "art" "MLmodel")) stW2 :=
  ⟨rfl,
   load_pyfunc_missing_flavor_fails "2.7.6" "art" false stW2
     ⟨[("sklearn", { loader_module := "mlflow.sklearn" })]⟩ rfl rfl⟩

/-- C3: for every artifact whose flavor configuration records a (truthy) code
path, `load_pyfunc` sets the module search path to exactly the artifact's code
directory, followed by the resolved code directories, followed by the previous
search path, and still returns a handle. -/
theorem load_pyfunc_prepends_packaged_code
    (cv path : String) (sw : Bool) (st : PyState) (m : Model) (conf : FlavorConf)
    (c : String)
    (hload : st.fs.find (os_join path "MLmodel") = some (.manifestFile m))
    (hflav : m.flavors.lookup FLAVOR_NAME = some conf)
    (hcode : conf.code = some c) (hc : c ≠ "") :
    (valueOf ((load_pyfunc cv path sw).run st)).isSome = true ∧
    (stateOf ((load_pyfunc cv path sw).run st)).sysPath =
      [os_join path c] ++ _get_code_dirs st.fs (os_join path c) ++ st.sysPath := by
  rw [load_pyfunc_run cv path sw st m conf hload hflav]
  have ht : truthy conf.code = true := by simp [truthy, hcode, hc]
  rw [hcode] at ht
  simp [valueOf, stateOf, hcode, ht]

def manifestW3 : Model := ⟨[("python_function",
  { loader_module := "mlflow.sklearn", python_version := some "2.7.6",
    code := some "code", data := some "data/model.pkl" })]⟩

def stW3 : PyState :=
  { fs := ⟨[("art/MLmodel", .manifestFile manifestW3),
      ("art/code", .dir), ("art/code/sklearn_iris.py", .file "src"),
      ("art/code/deps", .dir), ("art/code/util.pyc", .file "b"),
      ("art/code/__pycache__", .dir), ("art/data/model.pkl", .file "pkl")]⟩,
    sysPath := ["lib1", "lib2"] }

theorem load_pyfunc_prepends_packaged_code_witness :
    (stW3.fs.find (os_join "art" "MLmodel") = some (.manifestFile manifestW3) ∧
     manifestW3.flavors.lookup FLAVOR_NAME =
       some { loader_module := "mlflow.sklearn", python_version := some "2.7.6",
              code := some "code", data := some "data/model.pkl" } ∧
     ("code" : String) ≠ "") ∧
    (valueOf ((load_pyfunc "2.7.6" "art" false).run stW3)).isSome = true ∧
    (stateOf ((load_pyfunc "2.7.6" "art" false).run stW3)).sysPath =
      [os_join "art" "code"] ++ _get_code_dirs stW3.fs (os_join "art" "code") ++
        stW3.sysPath :=
  ⟨⟨rfl, rfl, by decide⟩,
   load_pyfunc_prepends_packaged_code "2.7.6" "art" false stW3 manifestW3
     { loader_module := "mlflow.sklearn", python_version := some "2.7.6",
       code := some "code", data := some "data/model.pkl" } "code"
     rfl rfl rfl (by decide)⟩

/-- C4: for every artifact, the data path handed to the resolved loader
module's `load_pyfunc` is `artifactPath` joined with the recorded `data` entry
when one is recorded, and `artifactPath` itself when none is recorded. -/
theorem load_pyfunc_effective_data_path
    (cv path : String) (sw : Bool) (st : PyState) (m : Model) (conf : FlavorConf)
    (hload : st.fs.find (os_join path "MLmodel") = some (.manifestFile m))
    (hflav : m.flavors.lookup FLAVOR_NAME = some conf) :
    valueOf ((load_pyfunc cv path sw).run st) =
      some { loader_module := conf.loader_module
             data_path := match conf.data with
               | some d => os_join path d
               | none => path } := by
  rw [load_pyfunc_run cv path sw st m conf hload hflav]
  simp [valueOf]

def manifestW4 : Model := ⟨[("python_function",
  { loader_module := "mlflow.sklearn", python_version := some "2.7.6" })]⟩

def stW4 : PyState := { fs := ⟨[("art/MLmodel", .manifestFile manifestW4)]⟩ }

theorem load_pyfunc_effective_data_path_witness :
    (stW4.fs.find (os_join "art" "MLmodel") = some (.manifestFile manifestW4) ∧
     manifestW4.flavors.lookup FLAVOR_NAME =
       some { loader_module := "mlflow.sklearn", python_version := some "2.7.6" }) ∧
    valueOf ((load_pyfunc "2.7.6" "art" true).run stW4) =
      some { loader_module := "mlflow.sklearn", data_path := "art" } :=
  ⟨⟨rfl, rfl⟩,
   load_pyfunc_effective_data_path "2.7.6" "art" true stW4 manifestW4
     { loader_module := "mlflow.sklearn", python_version := some "2.7.6" }
     rfl rfl⟩

/-- C7: with warnings unsuppressed, `load_pyfunc` appends exactly the advisory
lines computed from the recorded tag — exactly one line when the tag is absent
and exactly one when its major.minor differs from the running interpreter's —
while still returning a handle; with warnings suppressed it appends none and
still returns a handle. -/
theorem load_pyfunc_version_warning
    (cv path : String) (st : PyState) (m : Model) (conf : FlavorConf)
    (hload : st.fs.find (os_join path "MLmodel") = some (.manifestFile m))
    (hflav : m.flavors.lookup FLAVOR_NAME = some conf) :
    (stateOf ((load_pyfunc cv path false).run st)).stderrLines
        = st.stderrLines ++ warnMsgs cv conf.python_version ∧
    (stateOf ((load_pyfunc cv path true).run st)).stderrLines = st.stderrLines ∧
    (valueOf ((load_pyfunc cv path false).run st)).isSome = true ∧
    (valueOf ((load_pyfunc cv path true).run st)).isSome = true ∧
    (conf.python_version = none →
      warnMsgs cv conf.python_version = [unknownVersionMsg cv]) ∧
    (∀ v, conf.python_version = some v →
      get_major_minor_py_version v ≠ get_major_minor_py_version cv →
      warnMsgs cv conf.python_version = [versionMismatchMsg v cv]) := by
  rw [load_pyfunc_run cv path false st m conf hload hflav,
    load_pyfunc_run cv path true st m conf hload hflav]
  refine ⟨?_, ?_, ?_, ?_, ?_, ?_⟩
  · by_cases hc : truthy conf.code <;> simp [stateOf, hc]
  · by_cases hc : truthy conf.code <;> simp [stateOf, hc]
  · simp [valueOf]
  · simp [valueOf]
  · intro hv; simp [warnMsgs, hv]
  · intro v hv hne; simp [warnMsgs, hv, hne]

def manifestW7 : Model := ⟨[("python_function",
  { loader_module := "mlflow.sklearn", python_version := some "2.7.6" })]⟩

def stW7 : PyState :=
  { fs := ⟨[("art/MLmodel", .manifestFile manifestW7)]⟩,
    stderrLines := ["earlier"] }

theorem load_pyfunc_version_warning_witness :
    (stW7.fs.find (os_join "art" "MLmodel") = some (.manifestFile manifestW7) ∧
     manifestW7.flavors.lookup FLAVOR_NAME =
       some { loader_module := "mlflow.sklearn", python_version := some "2.7.6" }) ∧
    (stateOf ((load_pyfunc "3.6.4" "art" false).run stW7)).stderrLines
        = stW7.stderrLines ++ warnMsgs "3.6.4" (some "2.7.6") ∧
    (stateOf ((load_pyfunc "3.6.4" "art" true).run stW7)).stderrLines
        = stW7.stderrLines :=
  ⟨⟨rfl, rfl⟩,
   (load_pyfunc_version_warning "3.6.4" "art" stW7 manifestW7
     { loader_module := "mlflow.sklearn", python_version := some "2.7.6" }
     rfl rfl).1,
   (load_pyfunc_version_warning "3.6.4" "art" stW7 manifestW7
     { loader_module := "mlflow.sklearn", python_version := some "2.7.6" }
     rfl rfl).2.1⟩

/-- C10: for every artifact whose flavor configuration has no `code` entry or a
falsy (empty) one, `load_pyfunc` leaves the module search path unchanged. -/
theorem load_pyfunc_no_code_syspath_unchanged
    (cv path : String) (sw : Bool) (st : PyState) (m : Model) (conf : FlavorConf)
    (hload : st.fs.find (os_join path "MLmodel") = some (.manifestFile m))
    (hflav : m.flavors.lookup FLAVOR_NAME = some conf)
    (hcode : conf.code = none ∨ conf.code = some "") :
    (stateOf ((load_pyfunc cv path sw).run st)).sysPath = st.sysPath := by
  rw [load_pyfunc_run cv path sw st m conf hload hflav]
  have ht : truthy conf.code = false := by rcases hcode with h | h <;> simp [truthy, h]
  simp [stateOf, ht]

def manifestW10 : Model := ⟨[("python_function",
  { loader_module := "mlflow.sklearn", python_version := some "2.7.6",
    code := some "" })]⟩

def stW10 : PyState :=
  { fs := ⟨[("art/MLmodel", .manifestFile manifestW10)]⟩,
    sysPath := ["lib1"] }

theorem load_pyfunc_no_code_syspath_unchanged_witness :
    (stW10.fs.find (os_join "art" "MLmodel") = some (.manifestFile manifestW10) ∧
     manifestW10.flavors.lookup FLAVOR_NAME =
       some { loader_module := "mlflow.sklearn", python_version := some "2.7.6",
              code := some "" } ∧
     (({ loader_module := "mlflow.sklearn", python_version := some "2.7.6",
         code := some "" } : FlavorConf).code = none ∨
      ({ loader_module := "mlflow.sklearn", python_version := some "2.7.6",
         code := some "" } : FlavorConf).code = some "")) ∧
    (stateOf ((load_pyfunc "2.7.6" "art" false).run stW10)).sysPath = stW10.sysPath :=
  ⟨⟨rfl, rfl, Or.inr rfl⟩,
   load_pyfunc_no_code_syspath_unchanged "2.7.6" "art" false stW10 manifestW10
     { loader_module := "mlflow.sklearn", python_version := some "2.7.6",
       code := some "" }
     rfl rfl (Or.inr rfl)⟩

def stC5 : PyState :=
  { fs := ⟨[("c1", .dir), ("c1/a.py", .file "s"), ("c2", .dir)]⟩ }

/-- C5 (code bug): with a single code path, `save_model` copies it into the
`code/` subtree and records the flavor's `code` field; but with two code paths,
the second `_copy_file_or_tree` call runs `os.mkdir` on the already-created
`code/` directory and the save fails with `FileExistsError`, contradicting the
documented "list of paths" contract. -/
theorem save_model_second_code_path_mkdir_collision :
    errOf ((save_model "2.7.6" "/cwd" "out" "m" none ["c1", "c2"] none {}).run stC5)
        = some (.fileExists "out/code") ∧
    (valueOf ((save_model "2.7.6" "/cwd" "out" "m" none ["c1"] none {}).run stC5)).map
        (fun mo => (mo.flavors.lookup FLAVOR_NAME).map (fun cf => cf.code))
      = some (some (some "code")) ∧
    (stateOf ((save_model "2.7.6" "/cwd" "out" "m" none ["c1"] none {}).run stC5)).fs.existsP
        "out/code/c1" = true ∧
    (stateOf ((save_model "2.7.6" "/cwd" "out" "m" none ["c1", "c2"] none {}).run stC5)).fs.existsP
        "out/code/c2" = false :=
  ⟨rfl, rfl, rfl, rfl⟩

/-- The exclusion predicate exactly as C6's claim states it: compiled-artifact
entries (the compiled extension `.pyc`) and cache entries (`__pycache__`). -/
def claimedExcluded (x : String) : Bool := strEndsWith x ".pyc" || x = "__pycache__"

/-- `resolveCodeDirs` as C6 claims it behaves: the immediate entries of the
source directory minus only compiled-artifact and cache entries, rewritten
under the destination. -/
def claimed_code_dirs (fs : FS) (src_code_path : Path)
    (dst_code_path : Option Path := none) : List Path :=
  let dst := if truthy dst_code_path then dst_code_path.getD "" else src_code_path
  ((fs.listdir src_code_path).filter (fun x => ¬ claimedExcluded x)).map
    (fun x => os_join dst x)

def fsC6 : FS := ⟨[("s", .dir), ("s/model.py", .file "x")]⟩

/-- C6 counterexample: a source directory containing the Python source file
`model.py`, which is neither a compiled artifact nor a cache entry.  The code
excludes it anyway, so the function does not return "exactly the immediate
entries minus compiled-artifact and cache entries". -/
theorem get_code_dirs_excludes_source_py :
    fsC6.listdir "s" = ["model.py"] ∧
    _get_code_dirs fsC6 "s" = [] ∧
    claimed_code_dirs fsC6 "s" = ["s/model.py"] ∧
    _get_code_dirs fsC6 "s" ≠ claimed_code_dirs fsC6 "s" :=
  ⟨rfl, rfl, rfl, by decide⟩

/-- C6 (amended): `_get_code_dirs` returns exactly the immediate entries of the
source directory minus the entries ending in `.py`, the entries ending in
`.pyc` and the entries named `__pycache__` — Python source files are excluded
along with compiled artifacts and caches — each rewritten under the
destination directory (defaulting to the source directory). -/
theorem get_code_dirs_exclusion_characterization (fs : FS) (src : Path)
    (dstO : Option Path) :
    _get_code_dirs fs src dstO =
      ((fs.listdir src).filter (fun x =>
          ¬ (strEndsWith x ".py" = true ∨ strEndsWith x ".pyc" = true ∨ x = "__pycache__"))).map
        (fun x => os_join (if truthy dstO then dstO.getD "" else src) x) := by
  unfold _get_code_dirs
  refine congrArg _ (List.filter_congr ?_)
  intro x _
  simp [not_or]

/-- C8: the batched prediction wrapper labels its columns `str(0)..str(n-1)`
in exactly positional order; the model's output passes through unchanged (so
row order is preserved); for eleven positional inputs the column data stays
aligned with the argument order, and the positional label order differs from
the lexicographically sorted label order (whose strict lex sortedness the
fourth conjunct certifies). -/
theorem spark_udf_positional_column_order {α β : Type} (f : PandasDF α → List β)
    (args : List (List α)) (c0 c1 c2 c3 c4 c5 c6 c7 c8 c9 c10 : List α) :
    spark_udf_columns args = (List.range args.length).map (fun i => toString i) ∧
    spark_udf_predict f args = f (spark_udf_pdf args) ∧
    spark_udf_pdf [c0, c1, c2, c3, c4, c5, c6, c7, c8, c9, c10] =
      ⟨["0", "1", "2", "3", "4", "5", "6", "7", "8", "9", "10"],
       [c0, c1, c2, c3, c4, c5, c6, c7, c8, c9, c10]⟩ ∧
    List.Pairwise (fun a b => strLt a b = true)
      (["0", "1", "10", "2", "3", "4", "5", "6", "7", "8", "9"] : List String) ∧
    spark_udf_columns ([c0, c1, c2, c3, c4, c5, c6, c7, c8, c9, c10] : List (List α)) ≠
      ["0", "1", "10", "2", "3", "4", "5", "6", "7", "8", "9"] := by
  refine ⟨?_, rfl, by with_unfolding_all rfl, by decide, ?_⟩
  · unfold spark_udf_columns
    rw [show (fun ia : Nat × List α => toString ia.1)
          = (fun n : Nat => toString n) ∘ Prod.fst from rfl,
      ← List.map_map, List.enum_map_fst]
  · intro h
    have : (["0", "1", "2", "3", "4", "5", "6", "7", "8", "9", "10"] : List String)
        = ["0", "1", "10", "2", "3", "4", "5", "6", "7", "8", "9"] := by
      have h0 : spark_udf_columns ([c0, c1, c2, c3, c4, c5, c6, c7, c8, c9, c10] :
          List (List α)) = ["0", "1", "2", "3", "4", "5", "6", "7", "8", "9", "10"] := by
        with_unfolding_all rfl
      rw [h0] at h; exact h
    exact absurd this (by decide)

/-- Appending a non-empty string yields a non-empty string. -/
theorem append_ne_empty (a b : String) (hb : b ≠ "") : a ++ b ≠ "" := by
  intro h
  have hd := congrArg String.data h
  simp [String.data_append] at hd
  exact hb (by cases b with | mk d => simp_all)

/-- `os.path.join` of anything with a non-empty component is non-empty. -/
theorem os_join_ne_empty (a b : Path) (hb : b ≠ "") : os_join a b ≠ "" := by
  unfold os_join
  split
  · exact hb
  split
  · exact hb
  split
  · exact append_ne_empty a b hb
  · exact append_ne_empty (a ++ "/") b hb

/-- C9: for an artifact whose flavor records a (truthy) code entry, the list of
directories the emitted deployment script prepends (`emit_code_dirs`, inlined
verbatim by `get_module_loader_src`) is exactly the list `load_pyfunc` would
prepend for the same artifact materialized at the deployment path — same head
directory, same resolved directories rewritten under the deployment path, same
order, same prepend position — and the emitted source indeed inlines those
directories and the effective data path. -/
theorem emitted_script_matches_loader_prepend
    (src dst c cv : String) (sw : Bool) (conf : FlavorConf) (m : Model)
    (st stDep : PyState)
    (hcode : conf.code = some c) (hc : c ≠ "")
    (hsrcMan : st.fs.find (os_join src "MLmodel") = some (.manifestFile m))
    (hdepMan : stDep.fs.find (os_join dst "MLmodel") = some (.manifestFile m))
    (hflav : m.flavors.lookup FLAVOR_NAME = some conf)
    (hlist : stDep.fs.listdir (os_join dst c) = st.fs.listdir (os_join src c)) :
    emit_code_dirs st.fs src dst conf
      = [os_join dst c] ++ _get_code_dirs stDep.fs (os_join dst c) ∧
    (stateOf ((load_pyfunc cv dst sw).run stDep)).sysPath
      = emit_code_dirs st.fs src dst conf ++ stDep.sysPath ∧
    valueOf ((get_module_loader_src src dst).run st)
      = some (loader_template
          ("sys.path = " ++ "[" ++ String.intercalate ","
              ((emit_code_dirs st.fs src dst conf).map
                (fun x => "os.path.abspath(" ++ sq ++ x ++ sq ++ ")")) ++ "]"
            ++ " + sys.path; ")
          conf.loader_module
          (match conf.data with | some d => os_join dst d | none => dst)) := by
  have hne : os_join dst c ≠ "" := os_join_ne_empty dst c hc
  have h1 : emit_code_dirs st.fs src dst conf
      = [os_join dst c] ++ _get_code_dirs stDep.fs (os_join dst c) := by
    unfold emit_code_dirs _get_code_dirs
    simp [hcode, truthy, hne, hlist]
  refine ⟨h1, ?_, ?_⟩
  · rw [load_pyfunc_run cv dst sw stDep m conf hdepMan hflav, h1]
    have ht : truthy (some c) = true := by simp [truthy, hc]
    simp [stateOf, hcode, ht]
  · have ht : truthy conf.code = true := by simp [truthy, hcode, hc]
    simp [get_module_loader_src, Model.load, getFS, EStateM.run, bind, EStateM.bind,
      EStateM.get, pure, EStateM.pure, hsrcMan, hflav, valueOf, ht]

def manifestW9 : Model := ⟨[("python_function",
  { loader_module := "mlflow.sklearn", python_version := some "2.7.6",
    code := some "code", data := some "data/model.pkl" })]⟩

def stW9src : PyState :=
  { fs := ⟨[("art/MLmodel", .manifestFile manifestW9),
      ("art/code", .dir), ("art/code/sklearn_iris.py", .file "s"),
      ("art/code/deps", .dir)]⟩ }

def stW9dep : PyState :=
  { fs := ⟨[("dep/MLmodel", .manifestFile manifestW9),
      ("dep/code", .dir), ("dep/code/sklearn_iris.py", .file "s"),
      ("dep/code/deps", .dir)]⟩,
    sysPath := ["lib"] }

theorem emitted_script_matches_loader_prepend_witness :
    (({ loader_module := "mlflow.sklearn", python_version := some "2.7.6",
        code := some "code", data := some "data/model.pkl" } : FlavorConf).code
        = some "code" ∧
     ("code" : String) ≠ "" ∧
     stW9src.fs.find (os_join "art" "MLmodel") = some (.manifestFile manifestW9) ∧
     stW9dep.fs.find (os_join "dep" "MLmodel") = some (.manifestFile manifestW9) ∧
     manifestW9.flavors.lookup FLAVOR_NAME =
       some { loader_module := "mlflow.sklearn", python_version := some "2.7.6",
              code := some "code", data := some "data/model.pkl" } ∧
     stW9dep.fs.listdir (os_join "dep" "code") = stW9src.fs.listdir (os_join "art" "code")) ∧
    emit_code_dirs stW9src.fs "art" "dep"
        { loader_module := "mlflow.sklearn", python_version := some "2.7.6",
          code := some "code", data := some "data/model.pkl" }
      = [os_join "dep" "code"] ++ _get_code_dirs stW9dep.fs (os_join "dep" "code") :=
  ⟨⟨rfl, by decide, rfl, rfl, rfl, rfl⟩,
   (emitted_script_matches_loader_prepend "art" "dep" "code" "2.7.6" false
      { loader_module := "mlflow.sklearn", python_version := some "2.7.6",
        code := some "code", data := some "data/model.pkl" }
      manifestW9 stW9src stW9dep rfl (by decide) rfl rfl rfl rfl).1⟩

end Mlflow
